import Mathlib

/-!
A shallow embedding of the ledger core of the SecureBankingSystem repository
(`src/database.py`, class `BankingDatabase`), together with proofs about it.

Modelling conventions:
* SQLite `REAL` monetary values are modelled as `Rat` (exact rational
  arithmetic in place of IEEE floats; none of the verified properties depend
  on rounding).
* The `users` table is a `List User` in insertion order; `account_number` is
  the SQL `TEXT` primary key, kept as a `String` exactly as in the schema.
* The `transactions` table is a `List Txn` in insertion order.  The
  `AUTOINCREMENT` id and the `CURRENT_TIMESTAMP` column are modelled by a
  single logical counter `next_txn_id` that increases by one per inserted
  row, so timestamps are monotone along the log.
* Each Python method that opens a connection, mutates, and commits becomes a
  pure function `DB → ... → result × DB`; the failure paths (early `return`
  before any `UPDATE`/`INSERT`, or a caught exception before `commit`) leave
  the state unchanged, exactly as the uncommitted SQLite transaction does.
* SQL `MAX` over the `TEXT` column `account_number` is the lexicographic
  maximum (SQLite BINARY collation agrees with `String.lt` on ASCII digits).
* Python `int(s or 0)` on the fetched maximum is `none → 0`, and on a digit
  string it is the parsed base-10 value (`decimalVal`; all stored account
  numbers are decimal strings produced by the allocator itself).
-/

/-- A row of the `users` table (`src/database.py`, `init_database`). -/
structure User where
  account_number : String
  username : String
  password_hash : String
  full_name : String
  balance : Rat
deriving Repr, DecidableEq

/-- A row of the `transactions` table (`src/database.py`, `init_database`).
`timestamp` is the logical insertion time (see module docstring). -/
structure Txn where
  transaction_id : Nat
  account_number : String
  transaction_type : String
  amount : Rat
  descr : String
  timestamp : Nat
deriving Repr, DecidableEq

/-- The persistent state owned by `BankingDatabase`. -/
structure DB where
  users : List User
  txns : List Txn
  next_txn_id : Nat
deriving Repr, DecidableEq

/-- A freshly initialised database (`init_database` creates empty tables;
SQLite `AUTOINCREMENT` starts at 1). -/
def emptyDB : DB := { users := [], txns := [], next_txn_id := 1 }

/-- Modelled from the spec: the password digest is an external one-way
collaborator (`hash_password` in the source calls SHA-256, which is library
code outside this repository).  No verified claim depends on digest values,
only on the same function being total and deterministic, so it is modelled
as a tagging function. -/
def hash_password (password : String) : String :=
  "sha256:" ++ password

/-- `SELECT ... FROM users WHERE account_number = ?` (first matching row). -/
def findUser (db : DB) (account_number : String) : Option User :=
  db.users.find? (fun u => u.account_number == account_number)

/-- The balance of an account, if the account exists. -/
def balanceOf (db : DB) (account_number : String) : Option Rat :=
  (findUser db account_number).map (fun u => u.balance)

/-- `UPDATE users SET balance = ? WHERE account_number = ?`. -/
def setBalance (users : List User) (account_number : String) (b : Rat) : List User :=
  users.map (fun u => if u.account_number == account_number then { u with balance := b } else u)

/-- `SELECT MAX(account_number) FROM users`: lexicographic maximum of the
`TEXT` column, `none` when the table is empty. -/
def maxAcctStr (users : List User) : Option String :=
  users.foldl
    (fun acc u =>
      match acc with
      | none => some u.account_number
      | some s => if s < u.account_number then some u.account_number else some s)
    none

/-- Base-10 value of a decimal digit string, as Python's `int` computes it.
(Every account number the allocator stores is such a string; on any other
text Python's `int` would raise and `create_account` would return failure
without committing.) -/
def decimalVal (s : String) : Nat :=
  s.data.foldl (fun n c => n * 10 + (c.toNat - 48)) 0

/-- `int(result[0] or 0) + 1001` in `create_account` (`none` is SQL NULL,
which Python's `or 0` turns into 0). -/
def nextAcctNat (db : DB) : Nat :=
  (match maxAcctStr db.users with
   | none => 0
   | some s => decimalVal s) + 1001

/-- The `TEXT` account number the next successful `create_account` assigns. -/
def nextAccountNumber (db : DB) : String :=
  toString (nextAcctNat db)

/-- The condition under which the `INSERT` in `create_account` raises
`sqlite3.IntegrityError`: the `UNIQUE` constraint on `username` or the
primary key on `account_number` is violated. -/
def dupViolation (db : DB) (username account_number : String) : Bool :=
  db.users.any (fun u => u.username == username)
    || db.users.any (fun u => u.account_number == account_number)

/-- `BankingDatabase.create_account`.  The `INSERT` raises
`sqlite3.IntegrityError` (caught and reported as "Username already exists")
exactly when the `UNIQUE` constraint on `username` or the primary key on
`account_number` is violated; on that path nothing is committed. -/
def create_account (db : DB) (username password full_name : String)
    (initial_balance : Rat) : (Bool × String × String) × DB :=
  let account_number := nextAccountNumber db
  if dupViolation db username account_number then
    ((false, "", "Username already exists"), db)
  else
    ((true, account_number, "Account created successfully"),
      { db with
          users := db.users ++
            [{ account_number := account_number, username := username,
               password_hash := hash_password password, full_name := full_name,
               balance := initial_balance }] })

/-- `BankingDatabase.deposit`. -/
def deposit (db : DB) (account_number : String) (amount : Rat)
    (descr : String) : (Bool × String × Rat) × DB :=
  match findUser db account_number with
  | none => ((false, "Account not found", 0), db)
  | some u =>
    let new_balance := u.balance + amount
    ((true, "Deposit successful. New balance: " ++ toString new_balance, new_balance),
      { db with
          users := setBalance db.users account_number new_balance,
          txns := db.txns ++
            [{ transaction_id := db.next_txn_id, account_number := account_number,
               transaction_type := "DEPOSIT", amount := amount, descr := descr,
               timestamp := db.next_txn_id }],
          next_txn_id := db.next_txn_id + 1 })

/-- `BankingDatabase.withdraw`. -/
def withdraw (db : DB) (account_number : String) (amount : Rat)
    (descr : String) : (Bool × String × Rat) × DB :=
  match findUser db account_number with
  | none => ((false, "Account not found", 0), db)
  | some u =>
    if u.balance < amount then
      ((false, "Insufficient balance", u.balance), db)
    else
      let new_balance := u.balance - amount
      ((true, "Withdrawal successful. New balance: " ++ toString new_balance, new_balance),
        { db with
            users := setBalance db.users account_number new_balance,
            txns := db.txns ++
              [{ transaction_id := db.next_txn_id, account_number := account_number,
                 transaction_type := "WITHDRAWAL", amount := amount, descr := descr,
                 timestamp := db.next_txn_id }],
            next_txn_id := db.next_txn_id + 1 })

/-- `BankingDatabase.transfer`.  Both balances are read before either
`UPDATE`, and the two `UPDATE`s run in order (source first, destination
second) — for a self-transfer the second write therefore overwrites the
first. -/
def transfer (db : DB) (from_account to_account : String) (amount : Rat) :
    (Bool × String) × DB :=
  match findUser db from_account, findUser db to_account with
  | some fu, some tu =>
    if fu.balance < amount then
      ((false, "Insufficient balance"), db)
    else
      let new_from_balance := fu.balance - amount
      let new_to_balance := tu.balance + amount
      ((true, "Transfer successful"),
        { db with
            users := setBalance (setBalance db.users from_account new_from_balance)
              to_account new_to_balance,
            txns := db.txns ++
              [{ transaction_id := db.next_txn_id, account_number := from_account,
                 transaction_type := "TRANSFER_OUT", amount := amount,
                 descr := "Transfer to " ++ to_account, timestamp := db.next_txn_id },
               { transaction_id := db.next_txn_id + 1, account_number := to_account,
                 transaction_type := "TRANSFER_IN", amount := amount,
                 descr := "Transfer from " ++ from_account,
                 timestamp := db.next_txn_id + 1 }],
            next_txn_id := db.next_txn_id + 2 })
  | _, _ => ((false, "One or both accounts not found"), db)

/-- `ORDER BY timestamp DESC` as a relation: later timestamps first. -/
def histOrder (a b : Txn) : Prop := b.timestamp ≤ a.timestamp

instance : DecidableRel histOrder := fun a b =>
  inferInstanceAs (Decidable (b.timestamp ≤ a.timestamp))

instance : IsTotal Txn histOrder := ⟨fun a b => le_total b.timestamp a.timestamp⟩

instance : IsTrans Txn histOrder := ⟨fun _ _ _ h1 h2 => le_trans h2 h1⟩

/-- `BankingDatabase.get_transaction_history`: the account's rows, ordered by
timestamp descending, bounded by `LIMIT ?`.  A negative SQLite `LIMIT` means
no limit. -/
def get_transaction_history (db : DB) (account_number : String) (limit : Int) :
    List Txn :=
  let rows := List.insertionSort histOrder
    (db.txns.filter (fun t => t.account_number == account_number))
  if limit < 0 then rows else rows.take limit.toNat

/-- One committed invocation of a mutating `BankingDatabase` operation. -/
inductive Op where
  | create (username password full_name : String) (initial_balance : Rat)
  | dep (account_number : String) (amount : Rat) (descr : String)
  | wd (account_number : String) (amount : Rat) (descr : String)
  | xfer (from_account to_account : String) (amount : Rat)
deriving Repr, DecidableEq

/-- The state after one operation (a failed operation commits nothing and
leaves the state unchanged). -/
def applyOp (db : DB) : Op → DB
  | .create u p f i => (create_account db u p f i).2
  | .dep a amt d => (deposit db a amt d).2
  | .wd a amt d => (withdraw db a amt d).2
  | .xfer f t amt => (transfer db f t amt).2

/-- The state after a finite sequence of operations. -/
def runOps (db : DB) (ops : List Op) : DB :=
  ops.foldl applyOp db

/-- Every stored balance is nonnegative. -/
def NonnegDB (db : DB) : Prop :=
  ∀ u ∈ db.users, 0 ≤ u.balance

/-- Side conditions under which the nonnegativity invariant is preserved:
nonnegative opening balances, nonnegative deposit amounts, nonnegative
transfer amounts (withdrawals need no condition — the insufficient-funds
check already bounds them). -/
def OpNonneg : Op → Prop
  | .create _ _ _ i => 0 ≤ i
  | .dep _ amt _ => 0 ≤ amt
  | .wd _ _ _ => True
  | .xfer _ _ amt => 0 ≤ amt

/-- Concrete store used to instantiate theorems: two accounts as the real
allocator would number them. -/
def userA : User :=
  { account_number := "1001", username := "alice", password_hash := hash_password "pw1",
    full_name := "Alice A", balance := 1000 }

def userB : User :=
  { account_number := "2002", username := "bob", password_hash := hash_password "pw2",
    full_name := "Bob B", balance := 2000 }

def dbW : DB := { users := [userA, userB], txns := [], next_txn_id := 1 }

def txn1 : Txn :=
  { transaction_id := 1, account_number := "1001", transaction_type := "DEPOSIT",
    amount := 50, descr := "d1", timestamp := 1 }

def txn2 : Txn :=
  { transaction_id := 2, account_number := "2002", transaction_type := "DEPOSIT",
    amount := 60, descr := "d2", timestamp := 2 }

def txn3 : Txn :=
  { transaction_id := 3, account_number := "1001", transaction_type := "WITHDRAWAL",
    amount := 10, descr := "w1", timestamp := 3 }

def dbT : DB := { users := [userA, userB], txns := [txn1, txn2, txn3], next_txn_id := 4 }

section Lemmas

lemma find?_setBalance_self (users : List User) (a : String) (b : Rat) :
    (setBalance users a b).find? (fun u => u.account_number == a)
      = (users.find? (fun u => u.account_number == a)).map
          (fun u => { u with balance := b }) := by
  induction users with
  | nil => rfl
  | cons x xs ih =>
    by_cases h : x.account_number = a
    · have e1 : setBalance (x :: xs) a b = { x with balance := b } :: setBalance xs a b := by
        simp [setBalance, h]
      rw [e1, List.find?_cons_of_pos _ (by simp [h]),
        List.find?_cons_of_pos _ (by simp [h])]
      rfl
    · have e1 : setBalance (x :: xs) a b = x :: setBalance xs a b := by
        simp [setBalance, h]
      rw [e1, List.find?_cons_of_neg _ (by simp [h]),
        List.find?_cons_of_neg _ (by simp [h])]
      exact ih

lemma find?_setBalance_ne (users : List User) (a a' : String) (b : Rat)
    (h : a ≠ a') :
    (setBalance users a b).find? (fun u => u.account_number == a')
      = users.find? (fun u => u.account_number == a') := by
  induction users with
  | nil => rfl
  | cons x xs ih =>
    by_cases hx : x.account_number = a
    · have hx' : x.account_number ≠ a' := fun hc => h (hx ▸ hc)
      have e1 : setBalance (x :: xs) a b = { x with balance := b } :: setBalance xs a b := by
        simp [setBalance, hx]
      rw [e1, List.find?_cons_of_neg _ (by simp [hx']),
        List.find?_cons_of_neg _ (by simp [hx'])]
      exact ih
    · have e1 : setBalance (x :: xs) a b = x :: setBalance xs a b := by
        simp [setBalance, hx]
      by_cases hx' : x.account_number = a'
      · rw [e1, List.find?_cons_of_pos _ (by simp [hx']),
          List.find?_cons_of_pos _ (by simp [hx'])]
      · rw [e1, List.find?_cons_of_neg _ (by simp [hx']),
          List.find?_cons_of_neg _ (by simp [hx'])]
        exact ih

lemma setBalance_nonneg (users : List User) (a : String) (b : Rat)
    (h : ∀ u ∈ users, 0 ≤ u.balance) (hb : 0 ≤ b) :
    ∀ u ∈ setBalance users a b, 0 ≤ u.balance := by
  intro u hu
  rcases List.mem_map.mp hu with ⟨y, hy, rfl⟩
  by_cases hc : y.account_number = a
  · simp [hc, hb]
  · simp only [beq_iff_eq, hc, if_false]
    exact h y hy

lemma findUser_mem (db : DB) (a : String) (u : User)
    (h : findUser db a = some u) : u ∈ db.users :=
  List.mem_of_find?_eq_some h

end Lemmas

/-- C2: for an existing account with prior balance `b`, a successful deposit
of `a` yields balance `b + a`, a successful withdraw yields `b - a`, and a
successful transfer to a distinct existing account with prior balance `c`
yields source balance `b - a` and destination balance `c + a`. -/
theorem C2_balance_arithmetic (db : DB) (a1 a2 : String) (amt : Rat) (d : String)
    (u v : User) (h1 : findUser db a1 = some u) (h2 : findUser db a2 = some v)
    (hne : a1 ≠ a2) :
    ((deposit db a1 amt d).1.1 = true →
        balanceOf (deposit db a1 amt d).2 a1 = some (u.balance + amt))
    ∧ ((withdraw db a1 amt d).1.1 = true →
        balanceOf (withdraw db a1 amt d).2 a1 = some (u.balance - amt))
    ∧ ((transfer db a1 a2 amt).1.1 = true →
        balanceOf (transfer db a1 a2 amt).2 a1 = some (u.balance - amt)
        ∧ balanceOf (transfer db a1 a2 amt).2 a2 = some (v.balance + amt)) := by
  have h1' : db.users.find? (fun x => x.account_number == a1) = some u := h1
  have h2' : db.users.find? (fun x => x.account_number == a2) = some v := h2
  refine ⟨?_, ?_, ?_⟩
  · intro _
    simp only [deposit, h1]
    simp only [balanceOf, findUser]
    rw [find?_setBalance_self, h1']
    rfl
  · intro hs
    by_cases hlt : u.balance < amt
    · simp [withdraw, h1, hlt] at hs
    · simp only [withdraw, h1, hlt, if_false]
      simp only [balanceOf, findUser]
      rw [find?_setBalance_self, h1']
      rfl
  · intro hs
    by_cases hlt : u.balance < amt
    · simp [transfer, h1, h2, hlt] at hs
    · constructor
      · simp only [transfer, h1, h2, hlt, if_false]
        simp only [balanceOf, findUser]
        rw [find?_setBalance_ne _ _ _ _ (Ne.symm hne), find?_setBalance_self, h1']
        rfl
      · simp only [transfer, h1, h2, hlt, if_false]
        simp only [balanceOf, findUser]
        rw [find?_setBalance_self, find?_setBalance_ne _ _ _ _ hne, h2']
        rfl

/-- Witness for C2 at a concrete store. -/
theorem C2_balance_arithmetic_witness :
    balanceOf (deposit dbW "1001" 5 "d").2 "1001" = some (userA.balance + 5)
    ∧ balanceOf (withdraw dbW "1001" 5 "d").2 "1001" = some (userA.balance - 5)
    ∧ (balanceOf (transfer dbW "1001" "2002" 5).2 "1001" = some (userA.balance - 5)
        ∧ balanceOf (transfer dbW "1001" "2002" 5).2 "2002" = some (userB.balance + 5)) := by
  have h := C2_balance_arithmetic dbW "1001" "2002" 5 "d" userA userB rfl rfl (by decide)
  exact ⟨h.1 rfl, h.2.1 (by rfl), h.2.2 (by rfl)⟩

/-- C3 counterexample: the source account exists and the requested amount
exceeds its balance, yet the transfer does not fail with the
insufficient-funds error — the missing destination is detected first, so the
failure is "One or both accounts not found". -/
theorem C3_counterexample :
    findUser dbW "1001" = some userA
    ∧ userA.balance < 3000
    ∧ (transfer dbW "1001" "9999" 3000).1.1 = false
    ∧ (transfer dbW "1001" "9999" 3000).1.2 = "One or both accounts not found" :=
  ⟨rfl, by decide, rfl, rfl⟩

/-- C3 amended: withdraw (on an existing account) fails with
`InsufficientFunds` exactly when the amount exceeds the balance; transfer
does so exactly when, in addition, the destination account also exists; and
whenever a withdraw or transfer fails for any reason the whole store —
balances and transaction log — is unchanged. -/
theorem C3_amended_failure_semantics (db : DB) (a1 a2 : String) (amt : Rat)
    (d : String) (u v : User) (h1 : findUser db a1 = some u)
    (h2 : findUser db a2 = some v) :
    ((withdraw db a1 amt d).1 = (false, "Insufficient balance", u.balance) ↔ u.balance < amt)
    ∧ ((transfer db a1 a2 amt).1 = (false, "Insufficient balance") ↔ u.balance < amt)
    ∧ (∀ a amt' d', (withdraw db a amt' d').1.1 = false → (withdraw db a amt' d').2 = db)
    ∧ (∀ aF aT amt', (transfer db aF aT amt').1.1 = false → (transfer db aF aT amt').2 = db) := by
  refine ⟨?_, ?_, ?_, ?_⟩
  · by_cases hlt : u.balance < amt
    · simp [withdraw, h1, hlt]
    · simp [withdraw, h1, hlt]
  · by_cases hlt : u.balance < amt
    · simp [transfer, h1, h2, hlt]
    · simp [transfer, h1, h2, hlt]
  · intro a amt' d' hf
    cases hfind : findUser db a with
    | none => simp [withdraw, hfind]
    | some w =>
      by_cases hlt : w.balance < amt'
      · simp [withdraw, hfind, hlt]
      · simp [withdraw, hfind, hlt] at hf
  · intro aF aT amt' hf
    cases hF : findUser db aF with
    | none =>
      cases hT : findUser db aT with
      | none => simp [transfer, hF, hT]
      | some tu => simp [transfer, hF, hT]
    | some fu =>
      cases hT : findUser db aT with
      | none => simp [transfer, hF, hT]
      | some tu =>
        by_cases hlt : fu.balance < amt'
        · simp [transfer, hF, hT, hlt]
        · simp [transfer, hF, hT, hlt] at hf

/-- Witness for the amended C3 at a concrete store. -/
theorem C3_amended_failure_semantics_witness :
    ((withdraw dbW "1001" 3000 "d").1 = (false, "Insufficient balance", userA.balance)
        ↔ userA.balance < 3000)
    ∧ ((transfer dbW "1001" "2002" 3000).1 = (false, "Insufficient balance")
        ↔ userA.balance < 3000)
    ∧ (∀ a amt' d', (withdraw dbW a amt' d').1.1 = false → (withdraw dbW a amt' d').2 = dbW)
    ∧ (∀ aF aT amt', (transfer dbW aF aT amt').1.1 = false → (transfer dbW aF aT amt').2 = dbW) :=
  C3_amended_failure_semantics dbW "1001" "2002" 3000 "d" userA userB rfl rfl

/-- C4: a successful transfer appends, in the one atomic operation, exactly
one `TRANSFER_OUT` record of the amount to the source's history and exactly
one `TRANSFER_IN` record of the amount to the destination's history (the
transaction log is extended by exactly these two rows). -/
theorem C4_transfer_records (db : DB) (aF aT : String) (amt : Rat)
    (h : (transfer db aF aT amt).1.1 = true) :
    ∃ t1 t2 : Txn,
      (transfer db aF aT amt).2.txns = db.txns ++ [t1, t2]
      ∧ t1.account_number = aF ∧ t1.transaction_type = "TRANSFER_OUT" ∧ t1.amount = amt
      ∧ t2.account_number = aT ∧ t2.transaction_type = "TRANSFER_IN" ∧ t2.amount = amt := by
  cases hF : findUser db aF with
  | none =>
    cases hT : findUser db aT with
    | none => simp [transfer, hF, hT] at h
    | some tu => simp [transfer, hF, hT] at h
  | some fu =>
    cases hT : findUser db aT with
    | none => simp [transfer, hF, hT] at h
    | some tu =>
      by_cases hlt : fu.balance < amt
      · simp [transfer, hF, hT, hlt] at h
      · refine ⟨Txn.mk db.next_txn_id aF "TRANSFER_OUT" amt ("Transfer to " ++ aT)
            db.next_txn_id,
          Txn.mk (db.next_txn_id + 1) aT "TRANSFER_IN" amt ("Transfer from " ++ aF)
            (db.next_txn_id + 1),
          ?_, rfl, rfl, rfl, rfl, rfl, rfl⟩
        simp [transfer, hF, hT, hlt]

/-- Witness for C4 at a concrete store. -/
theorem C4_transfer_records_witness :
    (transfer dbW "1001" "2002" 5).1.1 = true
    ∧ ∃ t1 t2 : Txn,
        (transfer dbW "1001" "2002" 5).2.txns = dbW.txns ++ [t1, t2]
        ∧ t1.account_number = "1001" ∧ t1.transaction_type = "TRANSFER_OUT" ∧ t1.amount = 5
        ∧ t2.account_number = "2002" ∧ t2.transaction_type = "TRANSFER_IN" ∧ t2.amount = 5 :=
  ⟨rfl, C4_transfer_records dbW "1001" "2002" 5 rfl⟩

/-- C5 counterexample: the claim demands failure with `InvalidAmount` for a
zero amount and for a self-transfer; the code performs no such validation
and both calls succeed. -/
theorem C5_counterexample :
    ((0 : Rat) ≤ 0 ∧ (transfer dbW "1001" "2002" 0).1 = (true, "Transfer successful"))
    ∧ (transfer dbW "1001" "1001" 5).1 = (true, "Transfer successful") :=
  ⟨⟨le_refl 0, rfl⟩, rfl⟩

/-- C5 amended: `transfer` performs no amount or self-transfer validation —
for every amount `a ≤ 0` and for every self-transfer, the call succeeds
(rather than failing with `InvalidAmount`) whenever both accounts exist and
`a` does not exceed the source balance. -/
theorem C5_amended_no_validation (db : DB) (aF aT : String) (amt : Rat)
    (u v : User) (h1 : findUser db aF = some u) (h2 : findUser db aT = some v)
    (hbad : amt ≤ 0 ∨ aF = aT) (hle : amt ≤ u.balance) :
    (transfer db aF aT amt).1 = (true, "Transfer successful") := by
  have hlt : ¬u.balance < amt := not_lt.mpr hle
  simp [transfer, h1, h2, hlt]

/-- Witness for the amended C5 at a concrete store. -/
theorem C5_amended_no_validation_witness :
    ((0 : Rat) ≤ 0 ∨ "1001" = "2002") ∧ (0 : Rat) ≤ userA.balance
    ∧ (transfer dbW "1001" "2002" 0).1 = (true, "Transfer successful") :=
  ⟨Or.inl (le_refl 0), by decide,
    C5_amended_no_validation dbW "1001" "2002" 0 userA userB rfl rfl
      (Or.inl (le_refl 0)) (by decide)⟩

/-- C6 counterexample: a deposit of the negative amount `-5` is accepted
(the claim demands an `InvalidAmount` failure) and it changes the balance
from 1000 to 995. -/
theorem C6_counterexample :
    (-5 : Rat) ≤ 0
    ∧ (deposit dbW "1001" (-5) "d").1.1 = true
    ∧ balanceOf (deposit dbW "1001" (-5) "d").2 "1001" = some 995 := by
  refine ⟨by norm_num, rfl, ?_⟩
  have h1 : findUser dbW "1001" = some userA := rfl
  have h1' : dbW.users.find? (fun x => x.account_number == "1001") = some userA := rfl
  simp only [deposit, h1]
  simp only [balanceOf, findUser]
  rw [find?_setBalance_self, h1']
  norm_num [userA]

/-- C6 amended: `deposit` and `withdraw` perform no amount validation — for
every amount `a ≤ 0`, a deposit on an existing account succeeds and sets
the balance to `b + a`, and a withdraw succeeds and sets the balance to
`b - a` whenever `a ≤ b`. -/
theorem C6_amended_no_validation (db : DB) (a : String) (amt : Rat)
    (d : String) (u : User) (h : findUser db a = some u) (hle : amt ≤ 0) :
    ((deposit db a amt d).1.1 = true
      ∧ balanceOf (deposit db a amt d).2 a = some (u.balance + amt))
    ∧ (amt ≤ u.balance →
        (withdraw db a amt d).1.1 = true
        ∧ balanceOf (withdraw db a amt d).2 a = some (u.balance - amt)) := by
  have h' : db.users.find? (fun x => x.account_number == a) = some u := h
  refine ⟨⟨by simp [deposit, h], ?_⟩, ?_⟩
  · simp only [deposit, h]
    simp only [balanceOf, findUser]
    rw [find?_setBalance_self, h']
    rfl
  · intro hba
    have hlt : ¬u.balance < amt := not_lt.mpr hba
    refine ⟨by simp [withdraw, h, hlt], ?_⟩
    simp only [withdraw, h, hlt, if_false]
    simp only [balanceOf, findUser]
    rw [find?_setBalance_self, h']
    rfl

/-- Witness for the amended C6 at a concrete store. -/
theorem C6_amended_no_validation_witness :
    (-5 : Rat) ≤ 0
    ∧ ((deposit dbW "1001" (-5) "d").1.1 = true
        ∧ balanceOf (deposit dbW "1001" (-5) "d").2 "1001" = some (userA.balance + -5))
    ∧ ((withdraw dbW "1001" (-5) "d").1.1 = true
        ∧ balanceOf (withdraw dbW "1001" (-5) "d").2 "1001" = some (userA.balance - -5)) := by
  have h := C6_amended_no_validation dbW "1001" (-5) "d" userA rfl (by norm_num)
  exact ⟨by norm_num, h.1, h.2 (by decide)⟩

set_option maxRecDepth 8192 in
/-- C7 counterexample: from an empty store the first account is numbered
1001, but the second successfully created account is numbered 2002, not
1002 — the allocator adds 1001 (not 1) to the largest existing number. -/
theorem C7_counterexample :
    (create_account emptyDB "alice" "pw" "Alice" 1000).1
      = (true, "1001", "Account created successfully")
    ∧ (create_account (create_account emptyDB "alice" "pw" "Alice" 1000).2
        "bob" "pw" "Bob" 1000).1
      = (true, "2002", "Account created successfully")
    ∧ "2002" ≠ "1002" :=
  ⟨rfl, rfl, by decide⟩

/-- C7 amended: the first successfully created account receives number 1001;
the allocator assigns `int(max existing account number) + 1001`, so when the
store's largest account number is "1001" the next successful creation
receives "2002" (not "1002"); and a failed creation attempt leaves the
store — hence the next-assigned number — unchanged, so interleaved failed
attempts do not affect the numbering. -/
theorem C7_amended_numbering :
    (∀ u p f (i : Rat), (create_account emptyDB u p f i).1
        = (true, "1001", "Account created successfully"))
    ∧ (∀ db u p f (i : Rat), (create_account db u p f i).1.1 = false
        → (create_account db u p f i).2 = db)
    ∧ (∀ db u p f (i : Rat), maxAcctStr db.users = some "1001"
        → (create_account db u p f i).1.1 = true
        → (create_account db u p f i).1.2.1 = "2002") := by
  refine ⟨fun u p f i => rfl, ?_, ?_⟩
  · intro db u p f i hf
    by_cases hc : dupViolation db u (nextAccountNumber db) = true
    · simp [create_account, hc]
    · simp [create_account, hc] at hf
  · intro db u p f i hmax hs
    have hnum : nextAccountNumber db = "2002" := by
      simp only [nextAccountNumber, nextAcctNat, hmax]
      rfl
    by_cases hc : dupViolation db u (nextAccountNumber db) = true
    · simp [create_account, hc] at hs
    · have hc2 : ¬dupViolation db u "2002" = true := hnum ▸ hc
      simp [create_account, hnum, hc2]

set_option maxRecDepth 8192 in
/-- Witness for the amended C7 at concrete stores. -/
theorem C7_amended_numbering_witness :
    (create_account emptyDB "ann" "pw" "Ann" 10).1
      = (true, "1001", "Account created successfully")
    ∧ (create_account dbW "alice" "pw" "X" 10).2 = dbW
    ∧ (create_account (create_account emptyDB "alice" "pw" "Alice" 1000).2
        "bob" "pw" "Bob" 10).1.2.1 = "2002" := by
  have h := C7_amended_numbering
  exact ⟨h.1 "ann" "pw" "Ann" 10, h.2.1 dbW "alice" "pw" "X" 10 rfl,
    h.2.2 _ "bob" "pw" "Bob" 10 rfl rfl⟩

/-- C8: creating an account with a username that already exists fails with
the duplicate-username error, creates no row, and leaves the next-assigned
account number unchanged. -/
theorem C8_duplicate_username (db : DB) (u p f : String) (i : Rat)
    (h : ∃ x ∈ db.users, x.username = u) :
    (create_account db u p f i).1 = (false, "", "Username already exists")
    ∧ (create_account db u p f i).2 = db
    ∧ nextAccountNumber (create_account db u p f i).2 = nextAccountNumber db := by
  have hany : db.users.any (fun x => x.username == u) = true := by
    rcases h with ⟨x, hx, hu⟩
    exact List.any_eq_true.mpr ⟨x, hx, by simp [hu]⟩
  have hdup : dupViolation db u (nextAccountNumber db) = true := by
    simp [dupViolation, hany]
  simp [create_account, hdup]

/-- Witness for C8 at a concrete store. -/
theorem C8_duplicate_username_witness :
    (∃ x ∈ dbW.users, x.username = "alice")
    ∧ (create_account dbW "alice" "pw" "Y" 7).1 = (false, "", "Username already exists")
    ∧ (create_account dbW "alice" "pw" "Y" 7).2 = dbW := by
  have h := C8_duplicate_username dbW "alice" "pw" "Y" 7
    ⟨userA, by simp [dbW], rfl⟩
  exact ⟨⟨userA, by simp [dbW], rfl⟩, h.1, h.2.1⟩

/-- C9: for every limit `n ≥ 0`, the transaction history returns at most
`n` records, every returned record belongs to the requested account and to
the stored log, and the records are ordered most recent first (timestamps
nonincreasing). -/
theorem C9_history_limit_order (db : DB) (a : String) (n : Int) (h : 0 ≤ n) :
    (get_transaction_history db a n).length ≤ n.toNat
    ∧ (∀ t ∈ get_transaction_history db a n, t.account_number = a ∧ t ∈ db.txns)
    ∧ List.Sorted histOrder (get_transaction_history db a n) := by
  have hneg : ¬n < 0 := not_lt.mpr h
  refine ⟨?_, ?_, ?_⟩
  · simp only [get_transaction_history, hneg, if_false]
    exact List.length_take_le _ _
  · intro t ht
    simp only [get_transaction_history, hneg, if_false] at ht
    have ht2 : t ∈ List.insertionSort histOrder
        (db.txns.filter (fun x => x.account_number == a)) :=
      List.take_subset _ _ ht
    have ht3 : t ∈ db.txns.filter (fun x => x.account_number == a) :=
      ((List.perm_insertionSort histOrder _).mem_iff).mp ht2
    have ht4 := List.mem_filter.mp ht3
    exact ⟨by simpa using ht4.2, ht4.1⟩
  · have hs := List.sorted_insertionSort histOrder
      (db.txns.filter (fun x => x.account_number == a))
    simp only [get_transaction_history, hneg, if_false]
    exact List.Pairwise.sublist (List.take_sublist _ _) hs

/-- Witness for C9 at a concrete store with three logged transactions. -/
theorem C9_history_limit_order_witness :
    (0 : Int) ≤ 2
    ∧ ((get_transaction_history dbT "1001" 2).length ≤ (2 : Int).toNat
        ∧ (∀ t ∈ get_transaction_history dbT "1001" 2, t.account_number = "1001" ∧ t ∈ dbT.txns)
        ∧ List.Sorted histOrder (get_transaction_history dbT "1001" 2)) :=
  ⟨by decide, C9_history_limit_order dbT "1001" 2 (by decide)⟩

/-- C10: a self-transfer of `a` with `0 < a ≤ b` succeeds, appends both a
`TRANSFER_OUT` and a `TRANSFER_IN` record of amount `a` to the account's
history, and leaves the final balance at `b + a` — the credit balance write
overwrites the debit balance write. -/
theorem C10_self_transfer (db : DB) (a : String) (amt : Rat) (u : User)
    (h : findUser db a = some u) (h0 : 0 < amt) (hle : amt ≤ u.balance) :
    (transfer db a a amt).1 = (true, "Transfer successful")
    ∧ balanceOf (transfer db a a amt).2 a = some (u.balance + amt)
    ∧ (transfer db a a amt).2.txns = db.txns ++
        [Txn.mk db.next_txn_id a "TRANSFER_OUT" amt ("Transfer to " ++ a) db.next_txn_id,
         Txn.mk (db.next_txn_id + 1) a "TRANSFER_IN" amt ("Transfer from " ++ a)
           (db.next_txn_id + 1)] := by
  have hlt : ¬u.balance < amt := not_lt.mpr hle
  have h' : db.users.find? (fun x => x.account_number == a) = some u := h
  refine ⟨by simp [transfer, h, hlt], ?_, by simp [transfer, h, hlt]⟩
  simp only [transfer, h, hlt, if_false]
  simp only [balanceOf, findUser]
  rw [find?_setBalance_self, find?_setBalance_self, h']
  rfl

/-- Witness for C10 at a concrete store. -/
theorem C10_self_transfer_witness :
    (0 : Rat) < 5 ∧ (5 : Rat) ≤ userA.balance
    ∧ (transfer dbW "1001" "1001" 5).1 = (true, "Transfer successful")
    ∧ balanceOf (transfer dbW "1001" "1001" 5).2 "1001" = some (userA.balance + 5)
    ∧ (transfer dbW "1001" "1001" 5).2.txns = dbW.txns ++
        [Txn.mk dbW.next_txn_id "1001" "TRANSFER_OUT" 5 ("Transfer to " ++ "1001")
           dbW.next_txn_id,
         Txn.mk (dbW.next_txn_id + 1) "1001" "TRANSFER_IN" 5 ("Transfer from " ++ "1001")
           (dbW.next_txn_id + 1)] := by
  have h := C10_self_transfer dbW "1001" 5 userA rfl (by norm_num) (by decide)
  exact ⟨by norm_num, by decide, h.1, h.2.1, h.2.2⟩

lemma applyOp_nonneg (db : DB) (op : Op) (hdb : NonnegDB db) (hop : OpNonneg op) :
    NonnegDB (applyOp db op) := by
  cases op with
  | create u p f i =>
    by_cases hc : dupViolation db u (nextAccountNumber db) = true
    · simpa [applyOp, create_account, hc] using hdb
    · simp only [Bool.not_eq_true] at hc
      simp only [applyOp, create_account, hc]
      intro x hx
      simp at hx
      rcases hx with hx | rfl
      · exact hdb x hx
      · exact hop
  | dep a amt d =>
    cases hf : findUser db a with
    | none => simpa [applyOp, deposit, hf] using hdb
    | some w =>
      have hw : 0 ≤ w.balance := hdb w (findUser_mem db a w hf)
      simp only [applyOp, deposit, hf]
      intro x hx
      exact setBalance_nonneg db.users a _ hdb (by exact add_nonneg hw hop) x hx
  | wd a amt d =>
    cases hf : findUser db a with
    | none => simpa [applyOp, withdraw, hf] using hdb
    | some w =>
      by_cases hlt : w.balance < amt
      · simpa [applyOp, withdraw, hf, hlt] using hdb
      · simp only [applyOp, withdraw, hf, hlt, if_false]
        intro x hx
        exact setBalance_nonneg db.users a _ hdb
          (by linarith [not_lt.mp hlt]) x hx
  | xfer aF aT amt =>
    cases hF : findUser db aF with
    | none =>
      cases hT : findUser db aT with
      | none => simpa [applyOp, transfer, hF, hT] using hdb
      | some tu => simpa [applyOp, transfer, hF, hT] using hdb
    | some fu =>
      cases hT : findUser db aT with
      | none => simpa [applyOp, transfer, hF, hT] using hdb
      | some tu =>
        by_cases hlt : fu.balance < amt
        · simpa [applyOp, transfer, hF, hT, hlt] using hdb
        · simp only [applyOp, transfer, hF, hT, hlt, if_false]
          intro x hx
          have htu : 0 ≤ tu.balance := hdb tu (findUser_mem db aT tu hT)
          exact setBalance_nonneg _ aT _
            (setBalance_nonneg db.users aF _ hdb (by linarith [not_lt.mp hlt]))
            (add_nonneg htu hop) x hx

lemma runOps_nonneg (ops : List Op) :
    ∀ db, NonnegDB db → (∀ op ∈ ops, OpNonneg op) → NonnegDB (runOps db ops) := by
  induction ops with
  | nil => intro db h _; exact h
  | cons op rest ih =>
    intro db h hops
    have h1 : NonnegDB (applyOp db op) :=
      applyOp_nonneg db op h (hops op (List.mem_cons_self op rest))
    exact ih (applyOp db op) h1 (fun o ho => hops o (List.mem_cons_of_mem op ho))

/-- C1 counterexample: a committed account creation followed by a committed
deposit of the negative amount -2000 (the code never validates amounts)
drives the balance to -1000 < 0, violating the invariant. -/
theorem C1_counterexample :
    (create_account emptyDB "alice" "pw" "Alice" 1000).1.1 = true
    ∧ (deposit (create_account emptyDB "alice" "pw" "Alice" 1000).2
        "1001" (-2000) "d").1.1 = true
    ∧ balanceOf (deposit (create_account emptyDB "alice" "pw" "Alice" 1000).2
        "1001" (-2000) "d").2 "1001" = some (-1000)
    ∧ (-1000 : Rat) < 0 := by
  refine ⟨rfl, rfl, ?_, by norm_num⟩
  have h1 : findUser (create_account emptyDB "alice" "pw" "Alice" 1000).2 "1001"
      = some (User.mk "1001" "alice" (hash_password "pw") "Alice" 1000) := rfl
  have h1' : (create_account emptyDB "alice" "pw" "Alice" 1000).2.users.find?
      (fun x => x.account_number == "1001")
      = some (User.mk "1001" "alice" (hash_password "pw") "Alice" 1000) := rfl
  simp only [deposit, h1]
  simp only [balanceOf, findUser]
  rw [find?_setBalance_self, h1']
  norm_num

/-- C1 amended: balances stay nonnegative after every committed operation
provided the operations carry nonnegative amounts where the code does not
check them — nonnegative opening balances, nonnegative deposit amounts and
nonnegative transfer amounts (withdrawals are always safe, being guarded by
the insufficient-funds check).  Quantifying over all operation sequences
from the initial store covers every prefix, i.e. the state immediately
after each committed operation. -/
theorem C1_amended_nonneg (ops : List Op) (h : ∀ op ∈ ops, OpNonneg op) :
    NonnegDB (runOps emptyDB ops) :=
  runOps_nonneg ops emptyDB (fun u hu => absurd hu (List.not_mem_nil u)) h

/-- Witness for the amended C1 on a concrete four-operation history. -/
theorem C1_amended_nonneg_witness :
    (∀ op ∈ [Op.create "alice" "pw" "Alice" 1000, Op.dep "1001" 5 "d",
        Op.wd "1001" 200 "w", Op.xfer "1001" "1001" 3], OpNonneg op)
    ∧ NonnegDB (runOps emptyDB [Op.create "alice" "pw" "Alice" 1000,
        Op.dep "1001" 5 "d", Op.wd "1001" 200 "w", Op.xfer "1001" "1001" 3]) := by
  have hops : ∀ op ∈ [Op.create "alice" "pw" "Alice" 1000, Op.dep "1001" 5 "d",
      Op.wd "1001" 200 "w", Op.xfer "1001" "1001" 3], OpNonneg op := by
    intro op hop
    simp only [List.mem_cons, List.not_mem_nil, or_false] at hop
    rcases hop with rfl | rfl | rfl | rfl
    · exact (by norm_num : (0 : Rat) ≤ 1000)
    · exact (by norm_num : (0 : Rat) ≤ 5)
    · trivial
    · exact (by norm_num : (0 : Rat) ≤ 3)
  exact ⟨hops, C1_amended_nonneg _ hops⟩
